import Mathlib

/-!
Verification of the Grazing Suitability Score (GSS) pipeline
(`gss_app_update.py`): data model, min-max normalization, weighted
scoring, rule-based diagnosis, and the validation performed by `main`.

Numbers are modelled by the rationals `ℚ`; a table (pandas DataFrame) is
modelled column-wise as a list of named columns of cell values.
-/

namespace GSS

/-- A cell of the input table: a number, a missing value (None/NaN), or text. -/
inductive Value where
  | num (q : ℚ)
  | na
  | text (s : String)
deriving DecidableEq, Repr

/-- A table, as pandas holds it: an ordered list of named columns. -/
structure DataFrame where
  cols : List (String × List Value)
deriving DecidableEq, Repr

/-- Look a column up by name (first match, as pandas column access). -/
def getCol (df : DataFrame) (c : String) : Option (List Value) :=
  (df.cols.find? (fun p => decide (p.1 = c))).map (fun p => p.2)

/-- Numeric reading of a cell; `none` when the cell is not a number. -/
def toNum : Value → Option ℚ
  | .num q => some q
  | .na => none
  | .text _ => none

/-- Read a whole column as numbers; fails if any cell is non-numeric
(models the ValueError sklearn raises on non-numeric data). -/
def allNums : List Value → Option (List ℚ)
  | [] => some []
  | v :: vs =>
    match toNum v, allNums vs with
    | some q, some qs => some (q :: qs)
    | _, _ => none

/-- Fetch a named column and read it as numbers. -/
def getNumCol (df : DataFrame) (c : String) : Option (List ℚ) :=
  (getCol df c).bind allNums

/-- Minimum of a column (0 on the empty list, which the pipeline never takes). -/
def listMin : List ℚ → ℚ
  | [] => 0
  | x :: xs => xs.foldl min x

/-- Maximum of a column (0 on the empty list, which the pipeline never takes). -/
def listMax : List ℚ → ℚ
  | [] => 0
  | x :: xs => xs.foldl max x

/-- sklearn `_handle_zeros_in_scale`: a zero range is replaced by 1 so that a
constant column scales to 0 instead of dividing by zero. -/
def handle_zero (r : ℚ) : ℚ :=
  if r = 0 then 1 else r

/-- sklearn `MinMaxScaler` on one column with the default feature range (0,1):
`(x - min) / (max - min)`, with a zero range replaced by 1. -/
def minmax_scale (col : List ℚ) : List ℚ :=
  col.map (fun x => (x - listMin col) / handle_zero (listMax col - listMin col))

/-- The four weights of the Scorer. -/
structure Weights where
  biomass : ℚ
  shrub : ℚ
  grazing : ℚ
  woody : ℚ
deriving DecidableEq, Repr

/-- The documented default weights used when the caller supplies none. -/
def defaultWeights : Weights :=
  { biomass := 4/10, shrub := 2/10, grazing := 2/10, woody := 2/10 }

/-- `weights if weights is not None else the defaults` from `calculate_gss`. -/
def resolveWeights (wopt : Option Weights) : Weights :=
  wopt.getD defaultWeights

/-- The GSS of one record from its normalized features:
`w.biomass·nb + w.shrub·(1 − ns) + w.grazing·(1 − ng) + w.woody·(1 − nw)`. -/
def gssOf (w : Weights) (nb ns ng nw : ℚ) : ℚ :=
  w.biomass * nb + w.shrub * (1 - ns) + w.grazing * (1 - ng) + w.woody * (1 - nw)

/-- The `diagnose` rule cascade of `calculate_gss`, verbatim from the code. -/
def diagnose (gss shrub_raw grazing_raw woody_raw : ℚ) : String :=
  if gss < 3/10 then
    if shrub_raw > 7/10 then "Too much shrub cover"
    else if grazing_raw > 7/10 then "Excessive grazing pressure"
    else if woody_raw > 7/10 then "High woody plant density"
    else "Very low biomass"
  else if gss < 5/10 then "Poor condition, needs intervention"
  else if gss < 75/100 then "Moderately suitable"
  else "Highly suitable"

/-- Pointwise combination of the four scaled columns (the vectorized
row-wise operations of the pandas code). -/
def zip4With (f : ℚ → ℚ → ℚ → ℚ → α) : List ℚ → List ℚ → List ℚ → List ℚ → List α
  | a :: as, b :: bs, c :: cs, d :: ds => f a b c d :: zip4With f as bs cs ds
  | _, _, _, _ => []

/-- Diagnosis of one record: `diagnose(row.GSS, row.shrub_raw, row.grazing_raw,
row.woody_raw)`. -/
def diagRow (w : Weights) (nb ns ng nw : ℚ) : String :=
  diagnose (gssOf w nb ns ng nw) ns ng nw

/-- The four feature columns `calculate_gss` selects from the input. -/
def featureCols : List String :=
  ["available_biomass", "Shrub %", "grazing_pressure", "total woody count"]

/-- The normalization step of `calculate_gss`: select the four feature columns
(KeyError if one is absent, ValueError on non-numeric cells or zero samples —
all `none` here) and min-max scale each independently. -/
def scaledCols (df : DataFrame) :
    Option (List ℚ × List ℚ × List ℚ × List ℚ) :=
  (getNumCol df "available_biomass").bind fun b =>
  (getNumCol df "Shrub %").bind fun s =>
  (getNumCol df "grazing_pressure").bind fun g =>
  (getNumCol df "total woody count").bind fun wd =>
  if b = [] then none
  else some (minmax_scale b, minmax_scale s, minmax_scale g, minmax_scale wd)

/-- The body of `calculate_gss` up to `return result`: normalize, score,
diagnose, and append the `GSS` and `Diagnosis` columns to the input. -/
def calculate_gss_core (df : DataFrame) (w : Weights) : Option DataFrame :=
  (scaledCols df).map fun t =>
    ⟨df.cols ++
      [("GSS", (zip4With (gssOf w) t.1 t.2.1 t.2.2.1 t.2.2.2).map Value.num),
       ("Diagnosis",
        (zip4With (diagRow w) t.1 t.2.1 t.2.2.1 t.2.2.2).map Value.text)]⟩

/-- `calculate_gss(df, weights)`: the whole body runs under `try`, and any
exception yields the empty `pd.DataFrame()`. -/
def calculate_gss (df : DataFrame) (wopt : Option Weights) : DataFrame :=
  match calculate_gss_core df (resolveWeights wopt) with
  | some r => r
  | none => ⟨[]⟩

/-- `required_cols` of `main`: the identifier plus the four features. -/
def required_cols : List String :=
  ["Plot Name", "available_biomass", "Shrub %", "grazing_pressure",
   "total woody count"]

/-- Names of the columns a table has. -/
def colNames (df : DataFrame) : List String :=
  df.cols.map (fun p => p.1)

/-- `set(required_cols) - set(df.columns)`: the required columns absent from
the input, reported by the missing-columns error. -/
def missingCols (df : DataFrame) : List String :=
  required_cols.filter (fun c => decide (c ∉ colNames df))

/-- Is this cell a missing value? (`isnull` of pandas). -/
def isNullValue : Value → Bool
  | .na => true
  | _ => false

/-- `df[required_cols].isnull().any().any()`: some required column holds a
missing value. -/
def hasNullInRequired (df : DataFrame) : Bool :=
  required_cols.any fun c =>
    match getCol df c with
    | some vs => vs.any isNullValue
    | none => false

/-- Outcome of the upload-to-result path of `main`: a validation error naming
the missing columns, the (location-free) missing-values error, or the table
`calculate_gss` returned. -/
inductive PipelineResult where
  | validationError (missing : List String)
  | nullError
  | result (df : DataFrame)
deriving DecidableEq, Repr

/-- The validation and scoring path of `main` (lines 152-163): missing-columns
check first, then the missing-values check, then `calculate_gss` with the
default weights. -/
def runPipeline (df : DataFrame) : PipelineResult :=
  if missingCols df = [] then
    if hasNullInRequired df then .nullError
    else .result (calculate_gss df none)
  else .validationError (missingCols df)

/-- A two-row input table used as a concrete witness. -/
def sampleDF : DataFrame :=
  ⟨[("Plot Name", [Value.text "A", Value.text "B"]),
    ("available_biomass", [Value.num 10, Value.num 20]),
    ("Shrub %", [Value.num 30, Value.num 50]),
    ("grazing_pressure", [Value.num 2, Value.num 4]),
    ("total woody count", [Value.num 5, Value.num 8])]⟩

/-- A one-row input table: every feature column is constant. -/
def singleRowDF : DataFrame :=
  ⟨[("Plot Name", [Value.text "A"]),
    ("available_biomass", [Value.num 12]),
    ("Shrub %", [Value.num 30]),
    ("grazing_pressure", [Value.num 2]),
    ("total woody count", [Value.num 7])]⟩

/-- An input with all required columns but zero rows. -/
def emptyValidDF : DataFrame :=
  ⟨[("Plot Name", []), ("available_biomass", []), ("Shrub %", []),
    ("grazing_pressure", []), ("total woody count", [])]⟩

/-- A one-row input with a missing value in `grazing_pressure`. -/
def nullGrazingDF : DataFrame :=
  ⟨[("Plot Name", [Value.text "A"]), ("available_biomass", [Value.num 1]),
    ("Shrub %", [Value.num 1]), ("grazing_pressure", [Value.na]),
    ("total woody count", [Value.num 1])]⟩

/-- A one-row input with missing values in two other required columns. -/
def nullWoodyDF : DataFrame :=
  ⟨[("Plot Name", [Value.na]), ("available_biomass", [Value.num 2]),
    ("Shrub %", [Value.num 3]), ("grazing_pressure", [Value.num 4]),
    ("total woody count", [Value.na])]⟩

/-- An input lacking the `Shrub %` column. -/
def noShrubDF : DataFrame :=
  ⟨[("Plot Name", [Value.text "A"]), ("available_biomass", [Value.num 1]),
    ("grazing_pressure", [Value.num 2]), ("total woody count", [Value.num 3])]⟩

/-- An input with the four feature columns but no `Plot Name` column. -/
def noPlotNameDF : DataFrame :=
  ⟨[("available_biomass", [Value.num 1]), ("Shrub %", [Value.num 2]),
    ("grazing_pressure", [Value.num 3]), ("total woody count", [Value.num 4])]⟩

/-- A one-row input whose `Shrub %` cell is text: it passes the null check of
`main` but makes the scaler fail. -/
def textShrubDF : DataFrame :=
  ⟨[("Plot Name", [Value.text "A"]), ("available_biomass", [Value.num 1]),
    ("Shrub %", [Value.text "many"]), ("grazing_pressure", [Value.num 2]),
    ("total woody count", [Value.num 3])]⟩

/-! ### Lemmas about column minima and maxima -/

lemma foldl_min_le_init (l : List ℚ) (a : ℚ) : l.foldl min a ≤ a := by
  induction l generalizing a with
  | nil => simp
  | cons x xs ih =>
    rw [List.foldl_cons]
    exact le_trans (ih (min a x)) (min_le_left a x)

lemma foldl_min_le_mem (l : List ℚ) (a x : ℚ) (hx : x ∈ l) :
    l.foldl min a ≤ x := by
  induction l generalizing a with
  | nil => cases hx
  | cons y ys ih =>
    rw [List.foldl_cons]
    rcases List.mem_cons.mp hx with rfl | hmem
    · exact le_trans (foldl_min_le_init ys (min a x)) (min_le_right a x)
    · exact ih (min a y) hmem

lemma init_le_foldl_max (l : List ℚ) (a : ℚ) : a ≤ l.foldl max a := by
  induction l generalizing a with
  | nil => simp
  | cons x xs ih =>
    rw [List.foldl_cons]
    exact le_trans (le_max_left a x) (ih (max a x))

lemma mem_le_foldl_max (l : List ℚ) (a x : ℚ) (hx : x ∈ l) :
    x ≤ l.foldl max a := by
  induction l generalizing a with
  | nil => cases hx
  | cons y ys ih =>
    rw [List.foldl_cons]
    rcases List.mem_cons.mp hx with rfl | hmem
    · exact le_trans (le_max_right a x) (init_le_foldl_max ys (max a x))
    · exact ih (max a y) hmem

lemma listMin_le_mem (l : List ℚ) (x : ℚ) (hx : x ∈ l) : listMin l ≤ x := by
  cases l with
  | nil => cases hx
  | cons y ys =>
    unfold listMin
    rcases List.mem_cons.mp hx with rfl | hmem
    · exact foldl_min_le_init ys x
    · exact foldl_min_le_mem ys y x hmem

lemma mem_le_listMax (l : List ℚ) (x : ℚ) (hx : x ∈ l) : x ≤ listMax l := by
  cases l with
  | nil => cases hx
  | cons y ys =>
    unfold listMax
    rcases List.mem_cons.mp hx with rfl | hmem
    · exact init_le_foldl_max ys x
    · exact mem_le_foldl_max ys y x hmem

/-! ### Lemmas about the scaler -/

lemma minmax_scale_bounds (col : List ℚ) (x : ℚ) (hx : x ∈ minmax_scale col) :
    0 ≤ x ∧ x ≤ 1 := by
  obtain ⟨y, hy, rfl⟩ := List.mem_map.mp hx
  have h1 : listMin col ≤ y := listMin_le_mem col y hy
  have h2 : y ≤ listMax col := mem_le_listMax col y hy
  by_cases h : listMax col - listMin col = 0
  · have hy2 : y - listMin col = 0 := by linarith
    simp [handle_zero, h, hy2]
  · have hpos : 0 < listMax col - listMin col :=
      lt_of_le_of_ne (by linarith) (Ne.symm h)
    unfold handle_zero
    rw [if_neg h]
    constructor
    · exact div_nonneg (by linarith) (le_of_lt hpos)
    · rw [div_le_one hpos]; linarith

lemma minmax_scale_const (col : List ℚ) (h : listMin col = listMax col) :
    minmax_scale col = col.map (fun _ => 0) := by
  unfold minmax_scale
  apply List.map_congr_left
  intro y hy
  have h1 : listMin col ≤ y := listMin_le_mem col y hy
  have h2 : y ≤ listMax col := mem_le_listMax col y hy
  have hy2 : y - listMin col = 0 := by
    have : y = listMin col := le_antisymm (h ▸ h2) h1
    linarith
  simp [hy2]

lemma minmax_scale_length (col : List ℚ) :
    (minmax_scale col).length = col.length := by
  unfold minmax_scale
  exact List.length_map col _

/-! ### Lemmas about the row-wise combination -/

lemma zip4With_getElem {α : Type} (f : ℚ → ℚ → ℚ → ℚ → α) :
    ∀ (i : ℕ) (as bs cs ds : List ℚ) (a b c d : ℚ),
      as[i]? = some a → bs[i]? = some b → cs[i]? = some c → ds[i]? = some d →
      (zip4With f as bs cs ds)[i]? = some (f a b c d) := by
  intro i
  induction i with
  | zero =>
    intro as bs cs ds a b c d ha hb hc hd
    cases as <;> cases bs <;> cases cs <;> cases ds <;>
      simp_all [zip4With]
  | succ n ih =>
    intro as bs cs ds a b c d ha hb hc hd
    cases as with
    | nil => simp at ha
    | cons x xs =>
      cases bs with
      | nil => simp at hb
      | cons y ys =>
        cases cs with
        | nil => simp at hc
        | cons z zs =>
          cases ds with
          | nil => simp at hd
          | cons t ts =>
            simp only [List.getElem?_cons_succ] at ha hb hc hd
            unfold zip4With
            simp only [List.getElem?_cons_succ]
            exact ih xs ys zs ts a b c d ha hb hc hd

lemma zip4With_length {α : Type} (f : ℚ → ℚ → ℚ → ℚ → α) :
    ∀ (as bs cs ds : List ℚ) (n : ℕ), as.length = n → bs.length = n →
      cs.length = n → ds.length = n →
      (zip4With f as bs cs ds).length = n := by
  intro as
  induction as with
  | nil => intro bs cs ds n ha _ _ _; simp_all [zip4With]
  | cons x xs ih =>
    intro bs cs ds n ha hb hc hd
    cases bs with
    | nil => simp at ha hb; omega
    | cons y ys =>
      cases cs with
      | nil => simp at ha hc; omega
      | cons z zs =>
        cases ds with
        | nil => simp at ha hd; omega
        | cons t ts =>
          unfold zip4With
          simp only [List.length_cons] at ha hb hc hd ⊢
          cases n with
          | zero => omega
          | succ m =>
            have := ih ys zs ts m (by omega) (by omega) (by omega) (by omega)
            omega

lemma zip4With_mem {α : Type} (f : ℚ → ℚ → ℚ → ℚ → α) :
    ∀ (as bs cs ds : List ℚ) (x : α), x ∈ zip4With f as bs cs ds →
      ∃ a ∈ as, ∃ b ∈ bs, ∃ c ∈ cs, ∃ d ∈ ds, x = f a b c d := by
  intro as
  induction as with
  | nil => intro bs cs ds x hx; simp [zip4With] at hx
  | cons y ys ih =>
    intro bs cs ds x hx
    cases bs with
    | nil => simp [zip4With] at hx
    | cons b2 bs2 =>
      cases cs with
      | nil => simp [zip4With] at hx
      | cons c2 cs2 =>
        cases ds with
        | nil => simp [zip4With] at hx
        | cons d2 ds2 =>
          rcases List.mem_cons.mp hx with rfl | hmem
          · exact ⟨y, List.mem_cons_self y ys, b2, List.mem_cons_self b2 bs2,
              c2, List.mem_cons_self c2 cs2, d2, List.mem_cons_self d2 ds2, rfl⟩
          · obtain ⟨a, ha, b3, hb3, c3, hc3, d3, hd3, hx2⟩ := ih bs2 cs2 ds2 x hmem
            exact ⟨a, List.mem_cons_of_mem y ha, b3, List.mem_cons_of_mem b2 hb3,
              c3, List.mem_cons_of_mem c2 hc3, d3, List.mem_cons_of_mem d2 hd3, hx2⟩

/-! ### Lemmas about column extraction and the normalization step -/

lemma allNums_eq_none (vs : List Value) (v : Value) (hv : v ∈ vs)
    (hn : toNum v = none) : allNums vs = none := by
  induction vs with
  | nil => cases hv
  | cons w ws ih =>
    rcases List.mem_cons.mp hv with rfl | hmem
    · unfold allNums; rw [hn]
    · unfold allNums; rw [ih hmem]
      cases toNum w <;> rfl

lemma scaledCols_eq_some {df : DataFrame} {nb ns ng nw : List ℚ}
    (h : scaledCols df = some (nb, ns, ng, nw)) :
    ∃ b s g wd, getNumCol df "available_biomass" = some b ∧
      getNumCol df "Shrub %" = some s ∧
      getNumCol df "grazing_pressure" = some g ∧
      getNumCol df "total woody count" = some wd ∧ b ≠ [] ∧
      nb = minmax_scale b ∧ ns = minmax_scale s ∧
      ng = minmax_scale g ∧ nw = minmax_scale wd := by
  unfold scaledCols at h
  cases hb : getNumCol df "available_biomass" with
  | none => rw [hb] at h; simp at h
  | some b =>
    rw [hb] at h
    cases hs : getNumCol df "Shrub %" with
    | none => rw [hs] at h; simp at h
    | some s =>
      rw [hs] at h
      cases hg : getNumCol df "grazing_pressure" with
      | none => rw [hg] at h; simp at h
      | some g =>
        rw [hg] at h
        cases hw : getNumCol df "total woody count" with
        | none => rw [hw] at h; simp at h
        | some wd =>
          rw [hw] at h
          by_cases hne : b = []
          · simp [hne] at h
          · simp [hne] at h
            exact ⟨b, s, g, wd, rfl, rfl, rfl, rfl, hne,
              h.1.symm, h.2.1.symm, h.2.2.1.symm, h.2.2.2.symm⟩

lemma scaledCols_of_cols {df : DataFrame} {b s g wd : List ℚ}
    (hb : getNumCol df "available_biomass" = some b)
    (hs : getNumCol df "Shrub %" = some s)
    (hg : getNumCol df "grazing_pressure" = some g)
    (hw : getNumCol df "total woody count" = some wd) (hne : b ≠ []) :
    scaledCols df = some (minmax_scale b, minmax_scale s,
      minmax_scale g, minmax_scale wd) := by
  unfold scaledCols
  rw [hb, hs, hg, hw]
  simp [hne]

/-! ### Bounds on the weighted score -/

lemma gssOf_bounds (w : Weights) (hb : 0 ≤ w.biomass) (hs : 0 ≤ w.shrub)
    (hg : 0 ≤ w.grazing) (hw : 0 ≤ w.woody)
    (hsum : w.biomass + w.shrub + w.grazing + w.woody = 1)
    (nb ns ng nw : ℚ) (h1 : 0 ≤ nb) (h2 : nb ≤ 1) (h3 : 0 ≤ ns) (h4 : ns ≤ 1)
    (h5 : 0 ≤ ng) (h6 : ng ≤ 1) (h7 : 0 ≤ nw) (h8 : nw ≤ 1) :
    0 ≤ gssOf w nb ns ng nw ∧ gssOf w nb ns ng nw ≤ 1 := by
  unfold gssOf
  have p1 : 0 ≤ w.biomass * nb := mul_nonneg hb h1
  have p2 : 0 ≤ w.shrub * (1 - ns) := mul_nonneg hs (by linarith)
  have p3 : 0 ≤ w.grazing * (1 - ng) := mul_nonneg hg (by linarith)
  have p4 : 0 ≤ w.woody * (1 - nw) := mul_nonneg hw (by linarith)
  have q1 : w.biomass * nb ≤ w.biomass := by
    nlinarith
  have q2 : w.shrub * (1 - ns) ≤ w.shrub := by nlinarith
  have q3 : w.grazing * (1 - ng) ≤ w.grazing := by nlinarith
  have q4 : w.woody * (1 - nw) ≤ w.woody := by nlinarith
  constructor
  · linarith
  · linarith

/-! ### Spec-side Diagnoser: the ordered (predicate, label) rule list of
section 4.3 of the specification, first match wins. This definition follows
the specification text, to be compared with `diagnose` from the code. -/

/-- The seven ordered rules of the specification, as (predicate, label)
pairs over (GSS, normalized shrub, normalized grazing, normalized woody). -/
def ruleTable : List ((ℚ → ℚ → ℚ → ℚ → Bool) × String) :=
  [(fun g s _ _ => decide (g < 3/10) && decide (s > 7/10),
    "Too much shrub cover"),
   (fun g _ gr _ => decide (g < 3/10) && decide (gr > 7/10),
    "Excessive grazing pressure"),
   (fun g _ _ w => decide (g < 3/10) && decide (w > 7/10),
    "High woody plant density"),
   (fun g _ _ _ => decide (g < 3/10), "Very low biomass"),
   (fun g _ _ _ => decide (3/10 ≤ g) && decide (g < 5/10),
    "Poor condition, needs intervention"),
   (fun g _ _ _ => decide (5/10 ≤ g) && decide (g < 75/100),
    "Moderately suitable"),
   (fun g _ _ _ => decide (75/100 ≤ g), "Highly suitable")]

/-- Evaluate an ordered rule list: the label of the first rule whose
predicate holds. -/
def firstMatch (g s gr w : ℚ) :
    List ((ℚ → ℚ → ℚ → ℚ → Bool) × String) → String
  | [] => ""
  | (p, lbl) :: rest => if p g s gr w then lbl else firstMatch g s gr w rest

/-- The Diagnoser as the specification words it: the ordered rule list
evaluated first-match-first. -/
def diagnoseSpec (g s gr w : ℚ) : String :=
  firstMatch g s gr w ruleTable

/-! ### Claims -/

/-- C1: for every record, the GSS equals weight.biomass times the
normalized biomass plus weight.shrub times (1 minus normalized shrub) plus
weight.grazing times (1 minus normalized grazing) plus weight.woody times
(1 minus normalized woody); when the caller supplies no weights, the
weights used are biomass 0.4, shrub 0.2, grazing 0.2, woody 0.2. -/
theorem C1_gss_formula_and_default_weights (df : DataFrame)
    (wopt : Option Weights) (nb ns ng nw : List ℚ)
    (h : scaledCols df = some (nb, ns, ng, nw)) (i : ℕ) (b s g q : ℚ)
    (hb : nb[i]? = some b) (hs : ns[i]? = some s) (hg : ng[i]? = some g)
    (hq : nw[i]? = some q) :
    ∃ (gl : List ℚ) (dl : List String), calculate_gss df wopt =
        ⟨df.cols ++ [("GSS", gl.map Value.num),
                     ("Diagnosis", dl.map Value.text)]⟩ ∧
      gl[i]? = some ((resolveWeights wopt).biomass * b +
        (resolveWeights wopt).shrub * (1 - s) +
        (resolveWeights wopt).grazing * (1 - g) +
        (resolveWeights wopt).woody * (1 - q)) ∧
      resolveWeights none =
        { biomass := 4/10, shrub := 2/10, grazing := 2/10, woody := 2/10 } := by
  refine ⟨zip4With (gssOf (resolveWeights wopt)) nb ns ng nw,
          zip4With (diagRow (resolveWeights wopt)) nb ns ng nw, ?_, ?_, rfl⟩
  · unfold calculate_gss calculate_gss_core
    rw [h]
    rfl
  · rw [zip4With_getElem _ i nb ns ng nw b s g q hb hs hg hq]
    rfl

/-- C1 witness: the two-row sample table, scored with the default weights,
at row 0. -/
theorem C1_witness :
    ∃ (gl : List ℚ) (dl : List String), calculate_gss sampleDF none =
        ⟨sampleDF.cols ++ [("GSS", gl.map Value.num),
                           ("Diagnosis", dl.map Value.text)]⟩ ∧
      gl[0]? = some ((resolveWeights none).biomass * 0 +
        (resolveWeights none).shrub * (1 - 0) +
        (resolveWeights none).grazing * (1 - 0) +
        (resolveWeights none).woody * (1 - 0)) ∧
      resolveWeights none =
        { biomass := 4/10, shrub := 2/10, grazing := 2/10, woody := 2/10 } :=
  C1_gss_formula_and_default_weights sampleDF none [0, 1] [0, 1] [0, 1] [0, 1]
    (by simp [sampleDF, scaledCols, getNumCol, getCol, allNums, toNum,
          List.find?]
        norm_num [minmax_scale, listMin, listMax, handle_zero])
    0 0 0 0 0 rfl rfl rfl rfl

/-- C2: the Diagnoser returns exactly the first matching label of the seven
ordered rules of section 4.3, with the stated tie-break order and
inclusive-lower, strict-upper brackets; GSS exactly 0.3 yields "Poor
condition, needs intervention" and GSS exactly 0.75 yields
"Highly suitable". -/
theorem C2_diagnose_is_ordered_rule_list (g s gr w : ℚ) :
    diagnose g s gr w = diagnoseSpec g s gr w ∧
    diagnose (3/10) s gr w = "Poor condition, needs intervention" ∧
    diagnose (75/100) s gr w = "Highly suitable" := by
  refine ⟨?_, ?_, ?_⟩
  · unfold diagnose diagnoseSpec ruleTable firstMatch
    simp only [Bool.and_eq_true, decide_eq_true_eq]
    by_cases h1 : g < 3/10
    · by_cases h2 : s > 7/10
      · simp [firstMatch, h1, h2]
      · by_cases h3 : gr > 7/10
        · simp [firstMatch, h1, h2, h3]
        · by_cases h4 : w > 7/10
          · simp [firstMatch, h1, h2, h3, h4]
          · simp [firstMatch, h1, h2, h3, h4]
    · by_cases h5 : g < 5/10
      · simp [firstMatch, h1, h5, not_lt.mp h1]
      · by_cases h6 : g < 75/100
        · simp [firstMatch, h1, h5, h6, not_lt.mp h1, not_lt.mp h5]
        · simp [firstMatch, h1, h5, h6, not_lt.mp h1, not_lt.mp h5,
            not_lt.mp h6]
  · norm_num [diagnose]
  · norm_num [diagnose]

/-- C10: above the 0.3 threshold the diagnosis depends on the GSS alone;
the three normalized cause values cannot influence the label. -/
theorem C10_diagnosis_noninterference (g s1 gr1 w1 s2 gr2 w2 : ℚ)
    (h : 3/10 ≤ g) :
    diagnose g s1 gr1 w1 = diagnose g s2 gr2 w2 := by
  unfold diagnose
  rw [if_neg (not_lt.mpr h), if_neg (not_lt.mpr h)]

/-- C10 witness: at GSS 0.6 the label ignores the cause values. -/
theorem C10_witness :
    (3/10 : ℚ) ≤ 6/10 ∧
    diagnose (6/10) 1 1 1 = diagnose (6/10) 0 0 0 :=
  ⟨by norm_num, C10_diagnosis_noninterference (6/10) 1 1 1 0 0 0 (by norm_num)⟩

/-- C3: for a feature column whose minimum differs from its maximum, the
normalized value of every record equals (raw - min) / (max - min), the
minimum and maximum being taken over the whole column. -/
theorem C3_normalization_formula (col : List ℚ)
    (h : listMin col ≠ listMax col) (i : ℕ) :
    (minmax_scale col)[i]? =
      (col[i]?).map
        (fun x => (x - listMin col) / (listMax col - listMin col)) := by
  unfold minmax_scale
  rw [List.getElem?_map]
  have hz : handle_zero (listMax col - listMin col) =
      listMax col - listMin col := by
    unfold handle_zero
    rw [if_neg]
    intro hc
    exact h (by linarith)
  rw [hz]

/-- C3 witness: the column [10, 20] normalizes by the min-max formula to
[0, 1], and with biomass weight 1 and all other weights 0 the two GSS
values of the sample table are 0 and 1. -/
theorem C3_witness :
    (minmax_scale [10, 20])[1]? =
      ((([10, 20] : List ℚ))[1]?).map
        (fun x => (x - listMin [10, 20]) /
          (listMax [10, 20] - listMin [10, 20])) ∧
    minmax_scale [10, 20] = [0, 1] ∧
    calculate_gss sampleDF (some ⟨1, 0, 0, 0⟩) =
      ⟨sampleDF.cols ++ [("GSS", [Value.num 0, Value.num 1]),
        ("Diagnosis",
         [Value.text "Very low biomass", Value.text "Highly suitable"])]⟩ :=
  ⟨C3_normalization_formula [10, 20] (by norm_num [listMin, listMax]) 1,
   by norm_num [minmax_scale, listMin, listMax, handle_zero],
   by simp [sampleDF, calculate_gss, calculate_gss_core, scaledCols,
        getNumCol, getCol, allNums, toNum, List.find?]
      norm_num [minmax_scale, listMin, listMax, handle_zero, zip4With,
        gssOf, diagRow, diagnose, resolveWeights]⟩

/-- C4: when the four weights are non-negative and sum to 1, every GSS value
the Scorer computes lies in [0, 1]. -/
theorem C4_gss_in_unit_interval (df : DataFrame) (w : Weights)
    (hwb : 0 ≤ w.biomass) (hws : 0 ≤ w.shrub) (hwg : 0 ≤ w.grazing)
    (hww : 0 ≤ w.woody)
    (hsum : w.biomass + w.shrub + w.grazing + w.woody = 1)
    (nb ns ng nw : List ℚ) (h : scaledCols df = some (nb, ns, ng, nw))
    (q : ℚ) (hq : q ∈ zip4With (gssOf w) nb ns ng nw) :
    (∃ dl : List Value, calculate_gss_core df w = some
        ⟨df.cols ++ [("GSS", (zip4With (gssOf w) nb ns ng nw).map Value.num),
                     ("Diagnosis", dl)]⟩) ∧
    0 ≤ q ∧ q ≤ 1 := by
  refine ⟨⟨(zip4With (diagRow w) nb ns ng nw).map Value.text, ?_⟩, ?_⟩
  · unfold calculate_gss_core
    rw [h]
    rfl
  · obtain ⟨b, s, g, wd, hb2, hs2, hg2, hw2, hne, rfl, rfl, rfl, rfl⟩ :=
      scaledCols_eq_some h
    obtain ⟨a, ha, b3, hb3, c3, hc3, d3, hd3, rfl⟩ :=
      zip4With_mem (gssOf w) _ _ _ _ q hq
    have B1 := minmax_scale_bounds b a ha
    have B2 := minmax_scale_bounds s b3 hb3
    have B3 := minmax_scale_bounds g c3 hc3
    have B4 := minmax_scale_bounds wd d3 hd3
    exact gssOf_bounds w hwb hws hwg hww hsum a b3 c3 d3
      B1.1 B1.2 B2.1 B2.2 B3.1 B3.2 B4.1 B4.2

/-- C4 witness: the first GSS value of the sample table under the default
weights is 3/5, which lies in [0, 1]. -/
theorem C4_witness :
    (∃ dl : List Value, calculate_gss_core sampleDF defaultWeights = some
        ⟨sampleDF.cols ++
          [("GSS", (zip4With (gssOf defaultWeights)
              [0, 1] [0, 1] [0, 1] [0, 1]).map Value.num),
           ("Diagnosis", dl)]⟩) ∧
    0 ≤ (3/5 : ℚ) ∧ (3/5 : ℚ) ≤ 1 :=
  C4_gss_in_unit_interval sampleDF defaultWeights
    (by norm_num [defaultWeights]) (by norm_num [defaultWeights])
    (by norm_num [defaultWeights]) (by norm_num [defaultWeights])
    (by norm_num [defaultWeights]) [0, 1] [0, 1] [0, 1] [0, 1]
    (by simp [sampleDF, scaledCols, getNumCol, getCol, allNums, toNum,
          List.find?]
        norm_num [minmax_scale, listMin, listMax, handle_zero])
    (3/5)
    (by simp [zip4With]
        left
        norm_num [gssOf, defaultWeights])

/-- C5: when every required feature column parses as numbers and the table
has at least one row, `calculate_gss` raises no exception (the core
computation succeeds and its result is returned), and any constant feature
column receives the fallback normalized value 0 for every record. -/
theorem C5_constant_column_fallback (df : DataFrame) (wopt : Option Weights)
    (b s g wd : List ℚ)
    (hb : getNumCol df "available_biomass" = some b)
    (hs : getNumCol df "Shrub %" = some s)
    (hg : getNumCol df "grazing_pressure" = some g)
    (hw : getNumCol df "total woody count" = some wd)
    (hne : b ≠ []) (col : List ℚ) (hcol : col ∈ [b, s, g, wd])
    (hconst : listMin col = listMax col) :
    (∃ r, calculate_gss_core df (resolveWeights wopt) = some r ∧
      calculate_gss df wopt = r) ∧
    minmax_scale col = col.map (fun _ => 0) := by
  have hsc := scaledCols_of_cols hb hs hg hw hne
  have hcore : ∃ r, calculate_gss_core df (resolveWeights wopt) = some r := by
    unfold calculate_gss_core
    rw [hsc]
    exact ⟨_, rfl⟩
  obtain ⟨r, hr⟩ := hcore
  refine ⟨⟨r, hr, ?_⟩, minmax_scale_const col hconst⟩
  unfold calculate_gss
  rw [hr]

/-- C5 witness: the single-row table, whose every feature column is
constant, is scored without failure; each feature falls back to 0 and the
GSS computed from the fallback is 0.6, diagnosed "Moderately suitable". -/
theorem C5_witness :
    ((∃ r, calculate_gss_core singleRowDF (resolveWeights none) = some r ∧
        calculate_gss singleRowDF none = r) ∧
      minmax_scale [12] = ([12] : List ℚ).map (fun _ => 0)) ∧
    calculate_gss singleRowDF none =
      ⟨singleRowDF.cols ++ [("GSS", [Value.num (6/10)]),
        ("Diagnosis", [Value.text "Moderately suitable"])]⟩ :=
  ⟨C5_constant_column_fallback singleRowDF none [12] [30] [2] [7]
      (by simp [singleRowDF, getNumCol, getCol, allNums, toNum, List.find?])
      (by simp [singleRowDF, getNumCol, getCol, allNums, toNum, List.find?])
      (by simp [singleRowDF, getNumCol, getCol, allNums, toNum, List.find?])
      (by simp [singleRowDF, getNumCol, getCol, allNums, toNum, List.find?])
      (by simp) [12] (List.mem_cons_self _ _) rfl,
   by simp [singleRowDF, calculate_gss, calculate_gss_core, scaledCols,
        getNumCol, getCol, allNums, toNum, List.find?]
      norm_num [minmax_scale, listMin, listMax, handle_zero, zip4With,
        gssOf, diagRow, diagnose, resolveWeights, defaultWeights]⟩

/-- Validation helper: a required column absent from the input makes the
pipeline stop with the missing-columns error, which carries the set
difference of the required and the present columns. -/
lemma runPipeline_missing_column (df : DataFrame) (c : String)
    (hc : c ∈ required_cols) (hmiss : c ∉ colNames df) :
    runPipeline df = PipelineResult.validationError (missingCols df) ∧
    c ∈ missingCols df := by
  have hmem : c ∈ missingCols df := by
    unfold missingCols
    rw [List.mem_filter]
    exact ⟨hc, by simp [hmiss]⟩
  have hne2 : missingCols df ≠ [] := List.ne_nil_of_mem hmem
  constructor
  · unfold runPipeline
    rw [if_neg hne2]
  · exact hmem

/-- C6 counterexample: a table with all five required columns and zero rows
passes both validation checks and reaches the computation, whose caught
failure yields the empty result — not a validation error, refuting the
claim for empty inputs. Moreover the missing-values error carries no
location: two tables with nulls in different required columns produce the
very same outcome. -/
theorem C6_counterexample :
    runPipeline emptyValidDF = PipelineResult.result (DataFrame.mk []) ∧
    runPipeline nullGrazingDF = PipelineResult.nullError ∧
    runPipeline nullWoodyDF = PipelineResult.nullError :=
  ⟨by decide, by decide, by decide⟩

/-- C6 (amended): for every input table lacking a required column, the
pipeline stops with a validation error naming exactly the missing columns
(the set difference of the required and the present columns), before any
computation; a null in a required column likewise stops validation (with a
generic message naming no locations), while an empty table with all
required columns passes validation and its failure is handled downstream
as a caught computation error yielding an empty result. -/
theorem C6_missing_columns_validation (df : DataFrame) (c : String)
    (hc : c ∈ required_cols) (hmiss : c ∉ colNames df) :
    runPipeline df = PipelineResult.validationError (missingCols df) ∧
    c ∈ missingCols df :=
  runPipeline_missing_column df c hc hmiss

/-- C6 witness: the table without `Shrub %` is rejected by an error naming
exactly `Shrub %`. -/
theorem C6_witness :
    (runPipeline noShrubDF =
        PipelineResult.validationError (missingCols noShrubDF) ∧
      "Shrub %" ∈ missingCols noShrubDF) ∧
    missingCols noShrubDF = ["Shrub %"] :=
  ⟨C6_missing_columns_validation noShrubDF "Shrub %" (by decide) (by decide),
   by decide⟩

/-- C7: a non-numeric cell in a required feature column — one that passes
the null check of validation — makes the scaler fail; the failure is caught
at the boundary of `calculate_gss` and the whole result is the empty table,
never a partial one. -/
theorem C7_fail_closed (df : DataFrame) (wopt : Option Weights) (c : String)
    (hc : c ∈ featureCols) (vs : List Value) (hvs : getCol df c = some vs)
    (v : Value) (hv : v ∈ vs) (hnn : toNum v = none) :
    calculate_gss_core df (resolveWeights wopt) = none ∧
    calculate_gss df wopt = ⟨[]⟩ := by
  have hnum : getNumCol df c = none := by
    unfold getNumCol
    rw [hvs]
    exact allNums_eq_none vs v hv hnn
  have hsc : scaledCols df = none := by
    have hc2 : c = "available_biomass" ∨ c = "Shrub %" ∨
        c = "grazing_pressure" ∨ c = "total woody count" := by
      simpa [featureCols] using hc
    unfold scaledCols
    rcases hc2 with rfl | rfl | rfl | rfl
    · simp [hnum]
    · cases getNumCol df "available_biomass" <;> simp [hnum]
    · cases getNumCol df "available_biomass" <;>
        cases getNumCol df "Shrub %" <;> simp [hnum]
    · cases getNumCol df "available_biomass" <;>
        cases getNumCol df "Shrub %" <;>
        cases getNumCol df "grazing_pressure" <;> simp [hnum]
  have hcore : calculate_gss_core df (resolveWeights wopt) = none := by
    unfold calculate_gss_core
    rw [hsc]
    rfl
  refine ⟨hcore, ?_⟩
  unfold calculate_gss
  rw [hcore]

/-- C7 witness: a text cell in `Shrub %` yields the empty result. -/
theorem C7_witness :
    calculate_gss_core textShrubDF (resolveWeights none) = none ∧
    calculate_gss textShrubDF none = ⟨[]⟩ :=
  C7_fail_closed textShrubDF none "Shrub %" (by decide)
    [Value.text "many"] (by decide) (Value.text "many") (by decide) rfl

/-- C8: on success the result table is the input columns unchanged and in
order, with exactly the `GSS` and `Diagnosis` columns appended, each as long
as the input columns — row i of the result extends row i of the input. -/
theorem C8_result_extends_input (df : DataFrame) (wopt : Option Weights)
    (nb ns ng nw : List ℚ) (n : ℕ)
    (h : scaledCols df = some (nb, ns, ng, nw)) (h1 : nb.length = n)
    (h2 : ns.length = n) (h3 : ng.length = n) (h4 : nw.length = n) :
    ∃ (gl : List ℚ) (dl : List String), calculate_gss df wopt =
        ⟨df.cols ++ [("GSS", gl.map Value.num),
                     ("Diagnosis", dl.map Value.text)]⟩ ∧
      gl.length = n ∧ dl.length = n := by
  refine ⟨zip4With (gssOf (resolveWeights wopt)) nb ns ng nw,
          zip4With (diagRow (resolveWeights wopt)) nb ns ng nw, ?_, ?_, ?_⟩
  · unfold calculate_gss calculate_gss_core
    rw [h]
    rfl
  · exact zip4With_length _ nb ns ng nw n h1 h2 h3 h4
  · exact zip4With_length _ nb ns ng nw n h1 h2 h3 h4

/-- C8 witness: the two-row sample table gives a result with the original
five columns followed by GSS and Diagnosis columns of length 2. -/
theorem C8_witness :
    ∃ (gl : List ℚ) (dl : List String), calculate_gss sampleDF none =
        ⟨sampleDF.cols ++ [("GSS", gl.map Value.num),
                           ("Diagnosis", dl.map Value.text)]⟩ ∧
      gl.length = 2 ∧ dl.length = 2 :=
  C8_result_extends_input sampleDF none [0, 1] [0, 1] [0, 1] [0, 1] 2
    (by simp [sampleDF, scaledCols, getNumCol, getCol, allNums, toNum,
          List.find?]
        norm_num [minmax_scale, listMin, listMax, handle_zero])
    rfl rfl rfl rfl

/-- C9: an input having the four feature columns but no `Plot Name` column
is rejected by the missing-columns validation — the validation requires
five columns, the identifier included, not only the four features. -/
theorem C9_plot_name_required (df : DataFrame)
    (hfeat : ∀ c ∈ featureCols, c ∈ colNames df)
    (h : "Plot Name" ∉ colNames df) :
    runPipeline df = PipelineResult.validationError (missingCols df) ∧
    "Plot Name" ∈ missingCols df ∧ "Plot Name" ∈ required_cols :=
  ⟨(runPipeline_missing_column df "Plot Name" (by decide) h).1,
   (runPipeline_missing_column df "Plot Name" (by decide) h).2,
   by decide⟩

/-- C9 witness: the table with only the four feature columns is rejected,
the error naming exactly `Plot Name`. -/
theorem C9_witness :
    (runPipeline noPlotNameDF =
        PipelineResult.validationError (missingCols noPlotNameDF) ∧
      "Plot Name" ∈ missingCols noPlotNameDF ∧
      "Plot Name" ∈ required_cols) ∧
    missingCols noPlotNameDF = ["Plot Name"] :=
  ⟨C9_plot_name_required noPlotNameDF (by decide) (by decide), by decide⟩

end GSS
